import Mathlib

/-!
Verification of the csvlens main module (`src/main.rs`).

The file gives a shallow embedding of the orchestration code in `main.rs`
(`SeekableFile`, `parse_delimiter`, `get_offsets_to_make_visible`,
`scroll_to_found_record`, the main loop of `run_csvlens`, and `main`), and
proves properties about it. File-system and terminal effects are abstracted
into explicit parameters (whether an open or a seek probe succeeds, the bytes
read, the temporary file path); the collaborator modules that are not part of
`main.rs` (the `find`, `view`, `ui` and `input` modules) are modelled from
their interface specification, each such definition marked in its doc comment.
-/

namespace Csvlens

/-- The largest u64 value, used to model Rust's saturating u64 arithmetic. -/
def u64max : Nat := 2 ^ 64 - 1

/-- Rust `u64::saturating_add` modelled on `Nat`. -/
def saturating_add (a b : Nat) : Nat := min (a + b) u64max

/-- Rust `u64::saturating_sub` modelled on `Nat` (whose subtraction already
saturates at zero). -/
def saturating_sub (a b : Nat) : Nat := a - b

/-- Whether an `Except` computation succeeded (`Result::is_ok`). -/
def except_ok {e a : Type} : Except e a → Bool
  | Except.ok _ => true
  | Except.error _ => false

/-- Modelled from the spec: a `FoundRecord` of the `find` module (the module is
not part of `main.rs`): the row index of a match and the index of its first
matching column. -/
structure FoundRecord where
  row_index : Nat
  first_column : Nat
deriving Repr, DecidableEq, Inhabited

/-- A named temporary file (`tempfile::NamedTempFile`), abstracted as its path
together with the bytes written to it so far. -/
structure NamedTempFile where
  path : String
  content : List Nat
deriving Repr, DecidableEq, Inhabited

/-- The `SeekableFile` struct of `main.rs`: the original file name and, when the
input was not seekable, the temporary copy. -/
structure SeekableFile where
  filename : String
  inner_file : Option NamedTempFile
deriving Repr, DecidableEq, Inhabited

/-- `SeekableFile::new` from `main.rs`, with the file-system effects abstracted:
`openOk` is whether `File::open(filename)` succeeds, `probeOk` whether the
seek-to-start probe on the opened file succeeds, `content` the remaining bytes
of the opened file, and `tmpPath` the path of the freshly created
`NamedTempFile` (created empty). On a failed probe the whole content is read
and written to the temporary file, which is kept as `inner_file`; on a
successful probe no copy is made. A failed open is the `None` result. -/
def SeekableFile.new (filename : String) (openOk : Bool) (probeOk : Bool)
    (content : List Nat) (tmpPath : String) : Option SeekableFile :=
  if openOk then
    let inner_file : NamedTempFile := { path := tmpPath, content := [] }
    let inner_file_res : Option NamedTempFile :=
      if probeOk then
        none
      else
        some { inner_file with content := inner_file.content ++ content }
    some { filename := filename, inner_file := inner_file_res }
  else
    none

/-- `SeekableFile::filename` from `main.rs` (the spec calls it
`effective_path`): the temporary copy's path when one was made, otherwise the
original file name. -/
def SeekableFile.effective_path (s : SeekableFile) : String :=
  match s.inner_file with
  | some f => f.path
  | none => s.filename

/-- `parse_delimiter` from `main.rs`: succeeds exactly on a one-character ASCII
string, returning the character's code (the `u32 → u8` conversion, modelled by
the inner bound check, always succeeds for ASCII). -/
def parse_delimiter (s : String) : Except String Nat :=
  let err := "Delimiter should be one ascii character"
  match s.data with
  | [] => Except.error err
  | c :: rest =>
    if c.toNat ≤ 0x7F then
      match rest with
      | _ :: _ => Except.error err
      | [] => if c.toNat ≤ 255 then Except.ok c.toNat else Except.error err
    else
      Except.error err

/-- The spec's acceptance condition for a delimiter argument, as worded:
"exactly one printable byte" (ASCII printable range 0x20–0x7E). Used to compare
the spec's words with what `parse_delimiter` implements. -/
def spec_one_printable_byte (s : String) : Bool :=
  match s.data with
  | [c] => decide (0x20 ≤ c.toNat ∧ c.toNat ≤ 0x7E)
  | _ => false

/-- The condition `parse_delimiter` actually implements: exactly one ASCII
character. -/
def one_ascii_char (s : String) : Bool :=
  match s.data with
  | [c] => decide (c.toNat ≤ 0x7F)
  | _ => false

/-- Modelled from the spec: the state of a `Finder` of the `find` module (the
module is not part of `main.rs`): the scanned file, the target pattern, the
append-only ordered set of matched records committed by the background scan so far, a
cursor into that set, and the row hint used to bias cursor anchoring. -/
structure Finder where
  filename : String
  pattern : String
  match_set : List FoundRecord
  cursor : Option Nat
  row_hint : Nat
deriving Repr, DecidableEq, Inhabited

/-- Modelled from the spec: `Finder::new(filename, pattern)` starts a fresh
background scan; the object is immediately usable with no matched records committed
yet, no cursor, and no meaningful row hint. -/
def Finder.new (filename : String) (pattern : String) : Finder :=
  { filename := filename, pattern := pattern, match_set := [], cursor := none,
    row_hint := 0 }

/-- Modelled from the spec: `Finder::count()`, the number of matched records committed
so far. -/
def Finder.count (f : Finder) : Nat :=
  f.match_set.length

/-- Modelled from the spec: `Finder::set_row_hint(row_index)`. -/
def Finder.set_row_hint (f : Finder) (row_index : Nat) : Finder :=
  { f with row_hint := row_index }

/-- Modelled from the spec: `Finder::reset_cursor()` clears the cursor without
discarding matched records. -/
def Finder.reset_cursor (f : Finder) : Finder :=
  { f with cursor := none }

/-- Modelled from the spec: `Finder::next()` advances the cursor to the next
match, wrapping to the first at the end; with no cursor yet it anchors at the
nearest match at or after the row hint (wrapping to the first match when no
match is at or after the hint); returns the record now under the cursor, or
none when no matched records exist yet. -/
def Finder.next (f : Finder) : Option FoundRecord × Finder :=
  let n := f.match_set.length
  if n = 0 then
    (none, f)
  else
    let i := match f.cursor with
      | some c => (c + 1) % n
      | none => (f.match_set.findIdx fun r => f.row_hint ≤ r.row_index) % n
    (f.match_set.get? i, { f with cursor := some i })

/-- Modelled from the spec: `Finder::prev()`, symmetric to `next`, wrapping to
the last match at the start. -/
def Finder.prev (f : Finder) : Option FoundRecord × Finder :=
  let n := f.match_set.length
  if n = 0 then
    (none, f)
  else
    let i := match f.cursor with
      | some c => (c + n - 1) % n
      | none => ((f.match_set.findIdx fun r => f.row_hint ≤ r.row_index) + n - 1) % n
    (f.match_set.get? i, { f with cursor := some i })

/-- Modelled from the spec: `Finder::cursor_row_index()`, the row index of the
record under the cursor, if any. -/
def Finder.cursor_row_index (f : Finder) : Option Nat :=
  match f.cursor with
  | some c => (f.match_set.get? c).map FoundRecord.row_index
  | none => none

/-- The background scan committing more matched records to a `Finder`: an append at
the frame boundary (the spec's append-only growth of the match set). -/
def Finder.append_matches (f : Finder) (new : List FoundRecord) : Finder :=
  { f with match_set := f.match_set ++ new }

/-- Modelled from the spec: the state of a `RowsView` of the `view` module (the
module is not part of `main.rs`): first visible row, window height, the active
filter (a snapshot of the Finder installed by `set_filter`), the exact total
row count once fully scanned and its approximation before that, and the
currently selected row. -/
structure RowsView where
  rows_from : Nat
  num_rows : Nat
  filter : Option Finder
  total : Option Nat
  total_approx : Option Nat
  selected : Option Nat
deriving Repr, DecidableEq, Inhabited

/-- Modelled from the spec: `RowsView::is_filter()`. -/
def RowsView.is_filter (rv : RowsView) : Bool :=
  rv.filter.isSome

/-- Modelled from the spec: `RowsView::in_view(row_index)` is true iff the row
index falls within the half-open window starting at `rows_from` of height
`num_rows`. -/
def RowsView.in_view (rv : RowsView) (i : Nat) : Bool :=
  decide (rv.rows_from ≤ i ∧ i < rv.rows_from + rv.num_rows)

/-- Modelled from the spec: `RowsView::set_rows_from(offset)` moves the first
visible row, clamping to `[0, total - num_rows]` when the total is known and
only to `≥ 0` otherwise. -/
def RowsView.set_rows_from (rv : RowsView) (offset : Nat) : RowsView :=
  match rv.total with
  | some t => { rv with rows_from := min offset (t - rv.num_rows) }
  | none => { rv with rows_from := offset }

/-- Modelled from the spec: `RowsView::set_filter(finder)` installs the finder
snapshot as the active filter; the window position is kept (it is reinterpreted
as an index into the match set). -/
def RowsView.set_filter (rv : RowsView) (f : Finder) : RowsView :=
  { rv with filter := some f }

/-- Modelled from the spec: `RowsView::reset_filter()` returns to unfiltered
mode (a no-op if not filtering). -/
def RowsView.reset_filter (rv : RowsView) : RowsView :=
  { rv with filter := none }

/-- Modelled from the spec: a fresh `RowsView` starts at row offset 0 with no
filter. -/
def RowsView.new (num_rows : Nat) : RowsView :=
  { rows_from := 0, num_rows := num_rows, filter := none, total := none,
    total_approx := none, selected := none }

/-- Modelled from the spec: the `FinderState` rendered by the `ui` module:
either inactive or tracking the active finder's pattern. -/
inductive FinderState where
  | inactive : FinderState
  | active : String → FinderState
deriving Repr, DecidableEq, Inhabited

/-- Modelled from the spec: `FinderState::from_finder`. -/
def FinderState.from_finder (f : Finder) : FinderState :=
  FinderState.active f.pattern

/-- Modelled from the spec: the fields of the `ui` module's `CsvTableState`
that the main loop reads or writes: the column offset and the number of
columns rendered in the last frame (set by the renderer), the rows offset, the
renderer's flag saying whether more columns remain to show, the input buffer,
the finder state, the selected row and the total line number. -/
structure CsvTableState where
  filename : String
  cols_offset : Nat
  num_cols_rendered : Nat
  rows_offset : Nat
  has_more_cols_to_show : Bool
  buffer : Option String
  finder_state : FinderState
  selected : Option Nat
  total_line_number : Option Nat
deriving Repr, DecidableEq, Inhabited

/-- Modelled from the spec: `CsvTableState::set_cols_offset`. -/
def CsvTableState.set_cols_offset (ts : CsvTableState) (o : Nat) : CsvTableState :=
  { ts with cols_offset := o }

/-- Modelled from the spec: `CsvTableState::set_rows_offset`. -/
def CsvTableState.set_rows_offset (ts : CsvTableState) (o : Nat) : CsvTableState :=
  { ts with rows_offset := o }

/-- Modelled from the spec: `CsvTableState::reset_buffer`. -/
def CsvTableState.reset_buffer (ts : CsvTableState) : CsvTableState :=
  { ts with buffer := none }

/-- Modelled from the spec: `CsvTableState::set_buffer` (the input mode shown
next to the buffer is not tracked). -/
def CsvTableState.set_buffer (ts : CsvTableState) (buf : String) : CsvTableState :=
  { ts with buffer := some buf }

/-- Modelled from the spec: `CsvTableState::set_total_line_number`. -/
def CsvTableState.set_total_line_number (ts : CsvTableState) (n : Nat) : CsvTableState :=
  { ts with total_line_number := some n }

/-- The closed set of commands produced by the input state machine (spec §6). -/
inductive Control where
  | Quit : Control
  | ScrollTo : Nat → Control
  | ScrollLeft : Control
  | ScrollRight : Control
  | ScrollToNextFound : Control
  | ScrollToPrevFound : Control
  | Find : String → Control
  | Filter : String → Control
  | BufferContent : String → Control
  | BufferReset : Control
deriving Repr, DecidableEq, Inhabited

/-- Modelled from the spec: `RowsView::handle_control` applies the
scroll-affecting commands that need no Finder coordination (the absolute
`ScrollTo`); it fails with an `IOError` only when the underlying reader fails,
which only a command that re-reads rows can trigger. `readerOk` abstracts
whether the underlying reader succeeds. -/
def RowsView.handle_control (rv : RowsView) (c : Control) (readerOk : Bool) :
    Except String RowsView :=
  match c with
  | Control.ScrollTo n =>
    if readerOk then Except.ok (rv.set_rows_from n) else Except.error "read error"
  | _ => Except.ok rv

/-- `get_offsets_to_make_visible` from `main.rs`: the new row offset is the
found record's row index unless that row is already in view, and the new
column offset is the record's first matching column unless that column lies in
the currently rendered column range `[cols_offset, cols_offset saturating+
num_cols_rendered)`; `none` components mean "leave unchanged". -/
def get_offsets_to_make_visible (found_record : FoundRecord) (rows_view : RowsView)
    (csv_table_state : CsvTableState) : Option Nat × Option Nat :=
  let new_rows_offset : Option Nat :=
    if rows_view.in_view found_record.row_index then
      none
    else
      some found_record.row_index
  let cols_offset := csv_table_state.cols_offset
  let last_rendered_col := saturating_add cols_offset csv_table_state.num_cols_rendered
  let column_index := found_record.first_column
  let new_cols_offset : Option Nat :=
    if cols_offset ≤ column_index ∧ column_index < last_rendered_col then
      none
    else
      some column_index
  (new_rows_offset, new_cols_offset)

/-- `scroll_to_found_record` from `main.rs`: applies the offsets computed by
`get_offsets_to_make_visible` to the rows view and the table state. -/
def scroll_to_found_record (found_record : FoundRecord) (rows_view : RowsView)
    (csv_table_state : CsvTableState) : RowsView × CsvTableState :=
  let offs := get_offsets_to_make_visible found_record rows_view csv_table_state
  let rv := match offs.1 with
    | some rows_offset => rows_view.set_rows_from rows_offset
    | none => rows_view
  let ts := match offs.1 with
    | some rows_offset => csv_table_state.set_rows_offset rows_offset
    | none => csv_table_state
  let ts := match offs.2 with
    | some cols_offset => ts.set_cols_offset cols_offset
    | none => ts
  (rv, ts)

/-- The mutable state of the main loop of `run_csvlens`: the rows view, the
table state, the optional finder and the `first_found_scrolled` flag. -/
structure AppState where
  rows_view : RowsView
  table : CsvTableState
  finder : Option Finder
  first_found_scrolled : Bool
deriving Repr, DecidableEq, Inhabited

/-- The background scan's progress between two frames: new matched records are
appended to the current finder, if any. -/
def AppState.bg_append (s : AppState) (bg : List FoundRecord) : AppState :=
  match s.finder with
  | some f => { s with finder := some (f.append_matches bg) }
  | none => s

/-- The `match control` dispatch of the main loop of `run_csvlens` (the arm
bodies for each command, with the `is_filter` guards of the two
scroll-to-found arms). `Quit` is handled by the loop itself and falls through
here. -/
def dispatch (filename : String) (s : AppState) (c : Control) : AppState :=
  match c with
  | Control.Quit => s
  | Control.ScrollTo _ => { s with table := s.table.reset_buffer }
  | Control.ScrollLeft =>
    let new_cols_offset := saturating_sub s.table.cols_offset 1
    { s with table := s.table.set_cols_offset new_cols_offset }
  | Control.ScrollRight =>
    if s.table.has_more_cols_to_show then
      let new_cols_offset := saturating_add s.table.cols_offset 1
      { s with table := s.table.set_cols_offset new_cols_offset }
    else
      s
  | Control.ScrollToNextFound =>
    if !s.rows_view.is_filter then
      match s.finder with
      | some fdr =>
        match fdr.next with
        | (some found_record, fdr2) =>
          let rt := scroll_to_found_record found_record s.rows_view s.table
          { s with rows_view := rt.1, table := rt.2, finder := some fdr2 }
        | (none, fdr2) => { s with finder := some fdr2 }
      | none => s
    else
      s
  | Control.ScrollToPrevFound =>
    if !s.rows_view.is_filter then
      match s.finder with
      | some fdr =>
        match fdr.prev with
        | (some found_record, fdr2) =>
          let rt := scroll_to_found_record found_record s.rows_view s.table
          { s with rows_view := rt.1, table := rt.2, finder := some fdr2 }
        | (none, fdr2) => { s with finder := some fdr2 }
      | none => s
    else
      s
  | Control.Find str =>
    { s with finder := some (Finder.new filename str),
             first_found_scrolled := false,
             rows_view := s.rows_view.reset_filter,
             table := s.table.reset_buffer }
  | Control.Filter str =>
    let fdr := Finder.new filename str
    { s with finder := some fdr,
             table := s.table.reset_buffer,
             rows_view := (s.rows_view.set_rows_from 0).set_filter fdr }
  | Control.BufferContent buf =>
    { s with table := s.table.set_buffer buf }
  | Control.BufferReset =>
    let ts := s.table.reset_buffer
    if s.finder.isSome then
      { s with finder := none,
               table := { ts with finder_state := FinderState.inactive },
               rows_view := s.rows_view.reset_filter }
    else
      { s with table := ts }

/-- The "scroll to first result once ready" block of the main loop: when the
flag is not yet set and the finder has results, set the row hint to 0, take
`next()`, scroll to the returned record and set the flag. -/
def first_found_step (rv : RowsView) (ts : CsvTableState) (f : Finder)
    (first_found_scrolled : Bool) : RowsView × CsvTableState × Finder × Bool :=
  if !first_found_scrolled ∧ 0 < f.count then
    let f := f.set_row_hint 0
    match f.next with
    | (some found_record, f2) =>
      let rt := scroll_to_found_record found_record rv ts
      (rt.1, rt.2, f2, true)
    | (none, f2) => (rv, ts, f2, true)
  else
    (rv, ts, f, first_found_scrolled)

/-- The "reset cursor if out of view" block of the main loop. -/
def cursor_reset_step (rv : RowsView) (f : Finder) : Finder :=
  match f.cursor_row_index with
  | some cursor_row_index =>
    if !rv.in_view cursor_row_index then f.reset_cursor else f
  | none => f

/-- The finder synchronisation block at the end of each main-loop iteration
(`main.rs` lines 246–269): in find mode run the first-found scroll, the
out-of-view cursor reset and the row-hint update; in filter mode re-install
the finder as the filter so newly committed matched records become visible. -/
def finder_sync (s : AppState) : AppState :=
  match s.finder with
  | none => s
  | some fdr =>
    if !s.rows_view.is_filter then
      let r := first_found_step s.rows_view s.table fdr s.first_found_scrolled
      let f2 := cursor_reset_step r.1 r.2.2.1
      let f3 := f2.set_row_hint r.1.rows_from
      { rows_view := r.1, table := r.2.1, finder := some f3,
        first_found_scrolled := r.2.2.2 }
    else
      { s with rows_view := s.rows_view.set_filter fdr }

/-- The trailing table-state updates of each main-loop iteration: mirror the
rows offset and selection into the table state, update the total line number
and the finder state. -/
def step_end (s : AppState) : AppState :=
  let ts := s.table.set_rows_offset s.rows_view.rows_from
  let ts := { ts with selected := s.rows_view.selected }
  let ts := match s.rows_view.total with
    | some n => ts.set_total_line_number n
    | none =>
      match s.rows_view.total_approx with
      | some n => ts.set_total_line_number n
      | none => ts
  let ts := match s.finder with
    | some f => { ts with finder_state := FinderState.from_finder f }
    | none => ts
  { s with table := ts }

/-- The result of one main-loop iteration: continue with a new state, leave
the loop (`Quit`), or fail with a propagated error. -/
inductive StepResult where
  | cont : AppState → StepResult
  | quit : AppState → StepResult
  | failed : String → StepResult
deriving Repr, DecidableEq, Inhabited

/-- The state carried by a non-failing step result. -/
def StepResult.state : StepResult → Option AppState
  | StepResult.cont s => some s
  | StepResult.quit s => some s
  | StepResult.failed _ => none

/-- One iteration of the main loop of `run_csvlens`: the background scan's
newly committed records `bg` become visible, the control is read and handed to
`RowsView::handle_control`, `Quit` breaks out of the loop, every other control
is dispatched and followed by the finder synchronisation and the trailing
table-state updates. -/
def step (filename : String) (readerOk : Bool) (s : AppState)
    (bg : List FoundRecord) (c : Control) : StepResult :=
  let s := s.bg_append bg
  match s.rows_view.handle_control c readerOk with
  | Except.error e => StepResult.failed e
  | Except.ok rv =>
    let s := { s with rows_view := rv }
    match c with
    | Control.Quit => StepResult.quit s
    | _ => StepResult.cont (step_end (finder_sync (dispatch filename s c)))

/-- The main loop of `run_csvlens`, driven by a finite schedule of inputs,
each paired with the records the background scan committed since the previous
frame. Exhausting the schedule or reading `Quit` ends the loop normally. -/
def run_loop (filename : String) (readerOk : Bool) :
    AppState → List (List FoundRecord × Control) → Except String Unit
  | _, [] => Except.ok ()
  | s, ev :: rest =>
    match step filename readerOk s ev.1 ev.2 with
    | StepResult.failed e => Except.error e
    | StepResult.quit _ => Except.ok ()
    | StepResult.cont s2 => run_loop filename readerOk s2 rest

/-- The initial state of the main loop, as built at the top of `run_csvlens`. -/
def init_state (filename : String) (num_rows : Nat) : AppState :=
  { rows_view := RowsView.new num_rows,
    table := { filename := filename, cols_offset := 0, num_cols_rendered := 0,
               rows_offset := 0, has_more_cols_to_show := false, buffer := none,
               finder_state := FinderState.inactive, selected := none,
               total_line_number := none },
    finder := none,
    first_found_scrolled := false }

/-- `run_csvlens` from `main.rs` with its effects abstracted: argument parsing
applies `parse_delimiter` to the delimiter argument and fails on its error
before any file is touched (modelled from the spec's process entry point
contract), then the `SeekableFile` is opened (`openOk`, `probeOk`, `content`,
`tmpPath` as in `SeekableFile.new`), the reader is opened on the effective
path (`readerOpenOk`), and the main loop runs over the input schedule. -/
def run_csvlens (filename : String) (delimiter_arg : Option String)
    (openOk probeOk readerOpenOk readerOk : Bool) (content : List Nat)
    (tmpPath : String) (num_rows : Nat)
    (events : List (List FoundRecord × Control)) : Except String Unit :=
  let parsed : Except String (Option Nat) :=
    match delimiter_arg with
    | none => Except.ok none
    | some d =>
      match parse_delimiter d with
      | Except.ok b => Except.ok (some b)
      | Except.error e => Except.error e
  match parsed with
  | Except.error e => Except.error e
  | Except.ok _ =>
    match SeekableFile.new filename openOk probeOk content tmpPath with
    | none => Except.error ("Failed to open file: " ++ filename)
    | some file =>
      if readerOpenOk then
        run_loop file.effective_path readerOk
          (init_state file.effective_path num_rows) events
      else
        Except.error ("Failed to open file: " ++ file.effective_path)

/-- `main` from `main.rs`: on an error from `run_csvlens` the message is
printed and the process exits with code 1; otherwise the process ends normally
with exit code 0 and nothing printed. The pair is (exit code, printed
message). -/
def main_exit (r : Except String Unit) : Nat × Option String :=
  match r with
  | Except.ok _ => (0, none)
  | Except.error e => (1, some e)

/-! ## Concrete scenarios used by the witnesses and counterexamples -/

/-- A concrete rows view: a five-row window at the top of an unfiltered file. -/
def sample_rows_view : RowsView :=
  { rows_from := 0, num_rows := 5, filter := none, total := none,
    total_approx := none, selected := none }

/-- A concrete table state with three rendered columns. -/
def sample_table (cols_offset : Nat) (more : Bool) : CsvTableState :=
  { filename := "data.csv", cols_offset := cols_offset, num_cols_rendered := 3,
    rows_offset := 0, has_more_cols_to_show := more, buffer := none,
    finder_state := FinderState.inactive, selected := none,
    total_line_number := none }

/-- A concrete loop state with no finder. -/
def sample_state (cols_offset : Nat) (more : Bool) : AppState :=
  { rows_view := sample_rows_view, table := sample_table cols_offset more,
    finder := none, first_found_scrolled := false }

/-- A concrete rows view over a fully counted 100-row file with a ten-row
window at the top: jumps into the last window get clamped. -/
def clamp_rows_view : RowsView :=
  { rows_from := 0, num_rows := 10, filter := none, total := some 100,
    total_approx := none, selected := none }

/-- A concrete finder whose search found row 2 and whose cursor is on it. -/
def anchored_finder : Finder :=
  { filename := "data.csv", pattern := "x", match_set := [⟨2, 0⟩],
    cursor := some 0, row_hint := 0 }

/-- A concrete loop state in find mode with `anchored_finder` installed and
the first-found scroll already done. -/
def anchored_state : AppState :=
  { rows_view := sample_rows_view, table := sample_table 0 false,
    finder := some anchored_finder, first_found_scrolled := true }

/-- The state after one frame of `anchored_state` handling a buffered
keystroke. -/
def anchored_result : AppState :=
  match step "data.csv" true anchored_state [] (Control.BufferContent "q") with
  | StepResult.cont s2 => s2
  | _ => default

/-- A concrete finder with one match not yet navigated to. -/
def pending_finder : Finder :=
  { filename := "data.csv", pattern := "x", match_set := [⟨3, 1⟩],
    cursor := none, row_hint := 0 }

/-- A concrete loop state in filter mode. -/
def filtering_state : AppState :=
  { rows_view := { sample_rows_view with filter := some pending_finder },
    table := sample_table 1 true, finder := some pending_finder,
    first_found_scrolled := true }

/-- The state after the frame that handles `Find("x")` from the initial
state: a fresh finder with no results yet. -/
def find_frame : AppState :=
  match step "data.csv" true (init_state "data.csv" 5) [] (Control.Find "x") with
  | StepResult.cont s2 => s2
  | _ => default

/-- The state after the next frame, in which the background scan has
committed matches at rows 10 and 20 and the user presses
`ScrollToNextFound` in the same frame. -/
def find_frame2 : AppState :=
  match step "data.csv" true find_frame [⟨10, 0⟩, ⟨20, 0⟩]
      Control.ScrollToNextFound with
  | StepResult.cont s2 => s2
  | _ => default

/-! ## Helper lemmas -/

/-- Every failure of `parse_delimiter` carries the one fixed message. -/
theorem parse_delimiter_error_msg (s : String)
    (h : one_ascii_char s = false) :
    parse_delimiter s = Except.error "Delimiter should be one ascii character" := by
  unfold parse_delimiter
  rcases hs : s.data with _ | ⟨c, _ | ⟨d, rest⟩⟩
  · simp [hs]
  · have h2 : ¬ (c.toNat ≤ 0x7F) := by
      simpa [one_ascii_char, hs] using h
    simp [hs, h2]
  · by_cases hc : c.toNat ≤ 0x7F <;> simp [hs, hc]

/-- With a healthy reader the main loop never fails: it ends with `Ok(())`,
by `break` on `Quit` or by exhausting the input schedule. -/
theorem run_loop_ok (filename : String) (events : List (List FoundRecord × Control)) :
    ∀ s : AppState, run_loop filename true s events = Except.ok () := by
  induction events with
  | nil => intro s; rfl
  | cons ev rest ih =>
    intro s
    rcases ev with ⟨bg, c⟩
    cases c <;> simp [run_loop, step, RowsView.handle_control, ih]

/-! ## Claims -/

/-- C1: `SeekableSource.open` is correct in both branches: a successful
seek-to-start probe keeps the original path as the effective path and makes no
copy; a failed probe writes the entire remaining content to the freshly
created temporary file, whose path becomes the effective path. -/
theorem seekable_file_open_branches (filename tmpPath : String) (content : List Nat) :
    SeekableFile.new filename true true content tmpPath =
      some { filename := filename, inner_file := none } ∧
    SeekableFile.effective_path { filename := filename, inner_file := none } =
      filename ∧
    SeekableFile.new filename true false content tmpPath =
      some { filename := filename,
             inner_file := some { path := tmpPath, content := content } } ∧
    SeekableFile.effective_path
      { filename := filename,
        inner_file := some { path := tmpPath, content := content } } = tmpPath := by
  refine ⟨?_, rfl, ?_, rfl⟩ <;> simp [SeekableFile.new]

/-- C2 counterexample: the one-byte string with the ASCII control character
0x01 is not a printable byte, yet `parse_delimiter` accepts it (the code tests
`is_ascii`, not printability), so acceptance is not equivalent to "exactly one
printable byte". -/
theorem parse_delimiter_accepts_nonprintable :
    parse_delimiter "\x01" = Except.ok 1 ∧
    spec_one_printable_byte "\x01" = false :=
  ⟨rfl, rfl⟩

/-- C2 (amended): `parse_delimiter` succeeds, yielding the character's byte
value, iff its argument is exactly one ASCII character (printable or not);
any other input is rejected with the `ConfigError` message, and a rejected
delimiter makes `run_csvlens` fail before any file input/output happens (the
result is this error for every state of the file system). -/
theorem parse_delimiter_ascii_iff (s filename tmpPath : String)
    (openOk probeOk readerOpenOk readerOk : Bool) (content : List Nat)
    (num_rows : Nat) (events : List (List FoundRecord × Control)) :
    except_ok (parse_delimiter s) = one_ascii_char s ∧
    (∀ c : Char, s.data = [c] → c.toNat ≤ 0x7F →
      parse_delimiter s = Except.ok c.toNat) ∧
    (one_ascii_char s = false →
      run_csvlens filename (some s) openOk probeOk readerOpenOk readerOk
          content tmpPath num_rows events =
        Except.error "Delimiter should be one ascii character") := by
  refine ⟨?_, ?_, ?_⟩
  · rcases hs : s.data with _ | ⟨c, _ | ⟨d, rest⟩⟩
    · simp [parse_delimiter, one_ascii_char, except_ok, hs]
    · by_cases hc : c.toNat ≤ 0x7F
      · have hc2 : c.toNat ≤ 255 := le_trans hc (by norm_num)
        simp [parse_delimiter, one_ascii_char, except_ok, hs, hc, hc2]
      · simp [parse_delimiter, one_ascii_char, except_ok, hs, hc]
    · by_cases hc : c.toNat ≤ 0x7F <;>
        simp [parse_delimiter, one_ascii_char, except_ok, hs, hc]
  · intro c hs hc
    have hc2 : c.toNat ≤ 255 := le_trans hc (by norm_num)
    unfold parse_delimiter
    simp [hs, hc, hc2]
  · intro h
    have := parse_delimiter_error_msg s h
    simp [run_csvlens, this]

/-- C2 witness: the two-character string "ab" is rejected with the config
error before any file input/output, and a comma parses to byte 44. -/
theorem parse_delimiter_ascii_iff_witness :
    except_ok (parse_delimiter "ab") = one_ascii_char "ab" ∧
    parse_delimiter "," = Except.ok 44 ∧
    run_csvlens "data.csv" (some "ab") true true true true [] "tmp" 5 [] =
      Except.error "Delimiter should be one ascii character" :=
  ⟨(parse_delimiter_ascii_iff "ab" "data.csv" "tmp" true true true true [] 5 []).1,
   (parse_delimiter_ascii_iff "," "data.csv" "tmp" true true true true [] 5 []).2.1
     ',' rfl (by decide),
   (parse_delimiter_ascii_iff "ab" "data.csv" "tmp" true true true true [] 5
     []).2.2 rfl⟩

/-- C3: a fatal startup error — an invalid delimiter or a failed file open,
whether of the original file or of the reader on the effective path — makes
the process print the human-readable message and exit with code 1, while a run
whose startup succeeds and whose reader stays healthy ends with exit code 0
(in particular on a normal `Quit`). -/
theorem main_exit_codes (filename d tmpPath : String)
    (openOk probeOk readerOpenOk readerOk : Bool) (content : List Nat)
    (num_rows : Nat) (events : List (List FoundRecord × Control)) :
    (one_ascii_char d = false →
      main_exit (run_csvlens filename (some d) openOk probeOk readerOpenOk
          readerOk content tmpPath num_rows events) =
        (1, some "Delimiter should be one ascii character")) ∧
    (openOk = false →
      main_exit (run_csvlens filename none openOk probeOk readerOpenOk readerOk
          content tmpPath num_rows events) =
        (1, some ("Failed to open file: " ++ filename))) ∧
    (openOk = true → readerOpenOk = false → probeOk = true →
      main_exit (run_csvlens filename none openOk probeOk readerOpenOk readerOk
          content tmpPath num_rows events) =
        (1, some ("Failed to open file: " ++ filename))) ∧
    (openOk = true → readerOpenOk = true →
      main_exit (run_csvlens filename none openOk probeOk readerOpenOk true
          content tmpPath num_rows events) = (0, none)) := by
  refine ⟨?_, ?_, ?_, ?_⟩
  · intro h
    have := parse_delimiter_error_msg d h
    simp [run_csvlens, this, main_exit]
  · intro h
    subst h
    simp [run_csvlens, SeekableFile.new, main_exit]
  · intro h1 h2 h3
    subst h1; subst h2; subst h3
    simp [run_csvlens, SeekableFile.new, SeekableFile.effective_path, main_exit]
  · intro h1 h2
    subst h1; subst h2
    cases probeOk <;>
      simp [run_csvlens, SeekableFile.new, run_loop_ok, main_exit]

/-- C3 witness: an invalid delimiter exits 1 with a message, a failed open
exits 1 with a message, and a run that quits normally exits 0. -/
theorem main_exit_codes_witness :
    main_exit (run_csvlens "data.csv" (some "ab") true true true true [] "tmp"
        5 []) = (1, some "Delimiter should be one ascii character") ∧
    main_exit (run_csvlens "data.csv" none false true true true [] "tmp" 5 [])
      = (1, some ("Failed to open file: " ++ "data.csv")) ∧
    main_exit (run_csvlens "data.csv" none true true true true [] "tmp" 5
        [([], Control.Quit)]) = (0, none) :=
  ⟨(main_exit_codes "data.csv" "ab" "tmp" true true true true [] 5 []).1 rfl,
   (main_exit_codes "data.csv" "x" "tmp" false true true true [] 5 []).2.1 rfl,
   (main_exit_codes "data.csv" "x" "tmp" true true true true [] 5
     [([], Control.Quit)]).2.2.2 rfl rfl⟩

/-- C4: handling `Find(pattern)` or `Filter(pattern)` constructs a brand-new
`Finder` for that pattern — with an empty match set, no cursor and no row
hint — and it replaces whatever finder was held before, for every previous
state: no search state from a prior query is reused. -/
theorem finder_fresh_on_find_and_filter (filename : String) (s : AppState)
    (p : String) :
    (dispatch filename s (Control.Find p)).finder =
      some (Finder.new filename p) ∧
    (dispatch filename s (Control.Filter p)).finder =
      some (Finder.new filename p) :=
  ⟨rfl, rfl⟩

/-- C5: a main-loop iteration handling `Find(pattern)` resets the active
filter, so `is_filter()` is false at the end of the frame and all rows remain
visible; an iteration handling `Filter(pattern)` sets the row offset to 0 and
installs the new finder as the active filter. -/
theorem find_vs_filter_mode (filename : String) (readerOk : Bool) (s : AppState)
    (bg : List FoundRecord) (p : String) :
    ((step filename readerOk s bg (Control.Find p)).state.map
        (fun s2 => s2.rows_view.is_filter) = some false) ∧
    ((step filename readerOk s bg (Control.Filter p)).state.map
        (fun s2 => (s2.rows_view.rows_from, s2.rows_view.filter)) =
      some (0, some (Finder.new filename p))) := by
  constructor
  · cases hf : s.finder <;>
      simp [step, AppState.bg_append, hf, RowsView.handle_control, dispatch,
        finder_sync, RowsView.reset_filter, RowsView.is_filter, Finder.new,
        first_found_step, Finder.count, cursor_reset_step,
        Finder.cursor_row_index, Finder.set_row_hint, step_end,
        StepResult.state]
  · cases hf : s.finder <;>
      cases ht : s.rows_view.total <;>
      simp [step, AppState.bg_append, hf, ht, RowsView.handle_control, dispatch,
        finder_sync, RowsView.set_rows_from, RowsView.set_filter,
        RowsView.is_filter, Finder.new, step_end, StepResult.state]

/-- C6: the column-scroll commands saturate and never produce an error:
`RowsView::handle_control` accepts both commands without touching the reader,
a `ScrollLeft` decrements the column offset saturating at 0 (in particular an
offset of 0 stays 0), and a `ScrollRight` increments the column offset exactly
when the renderer reports more columns to show. -/
theorem scroll_saturation (filename : String) (readerOk : Bool) (s : AppState) :
    (s.rows_view.handle_control Control.ScrollLeft readerOk =
      Except.ok s.rows_view) ∧
    (s.rows_view.handle_control Control.ScrollRight readerOk =
      Except.ok s.rows_view) ∧
    ((dispatch filename s Control.ScrollLeft).table.cols_offset =
      saturating_sub s.table.cols_offset 1) ∧
    (s.table.cols_offset = 0 →
      (dispatch filename s Control.ScrollLeft).table.cols_offset = 0) ∧
    (s.table.has_more_cols_to_show = true →
      (dispatch filename s Control.ScrollRight).table.cols_offset =
        saturating_add s.table.cols_offset 1) ∧
    (s.table.has_more_cols_to_show = false →
      (dispatch filename s Control.ScrollRight).table.cols_offset =
        s.table.cols_offset) := by
  refine ⟨rfl, rfl, rfl, ?_, ?_, ?_⟩
  · intro h
    simp [dispatch, CsvTableState.set_cols_offset, saturating_sub, h]
  · intro h
    simp [dispatch, CsvTableState.set_cols_offset, h]
  · intro h
    simp [dispatch, h]

/-- C6 witness: at column offset 0 a `ScrollLeft` stays at 0; at offset 2 a
`ScrollRight` moves to 3 when more columns remain and stays at 2 when not. -/
theorem scroll_saturation_witness :
    (dispatch "data.csv" (sample_state 0 false) Control.ScrollLeft).table.cols_offset
      = 0 ∧
    (dispatch "data.csv" (sample_state 2 true) Control.ScrollRight).table.cols_offset
      = saturating_add 2 1 ∧
    (dispatch "data.csv" (sample_state 2 false) Control.ScrollRight).table.cols_offset
      = 2 :=
  ⟨(scroll_saturation "data.csv" true (sample_state 0 false)).2.2.2.1 rfl,
   (scroll_saturation "data.csv" true (sample_state 2 true)).2.2.2.2.1 rfl,
   (scroll_saturation "data.csv" true (sample_state 2 false)).2.2.2.2.2 rfl⟩

/-- C8 counterexample: in a fully counted 100-row file with a ten-row window
at the top, the record at row 95 is not in view, yet `scroll_to_found_record`
moves the rows view's first visible row to 90, not to the record's row index
95: `set_rows_from` clamps the jump to the last full window, so the claim's
"setting it to that row index" fails. -/
theorem scroll_to_found_record_clamp_counterexample :
    clamp_rows_view.in_view 95 = false ∧
    (scroll_to_found_record ⟨95, 0⟩ clamp_rows_view
      (sample_table 0 false)).1.rows_from = 90 ∧
    (90 : Nat) ≠ 95 :=
  ⟨rfl, rfl, by decide⟩

/-- C8 (amended): `scroll_to_found_record` changes the row offset exactly
when the found record's row index is not already in view — the table state's
rows offset is set to that row index, while the rows view's first visible row
is set to that row index as clamped by `set_rows_from` (its minimum with
`total - window_height` when the total is known, the row index itself
otherwise) — and changes the column offset exactly when the record's first
matching column lies outside `[cols_offset, cols_offset +
num_cols_rendered)`, setting it to that column index; a component that is
already visible is left unchanged. The hypothesis keeps the u64 saturating
addition of the column bound out of play (the rendered column window cannot
overflow a u64). -/
theorem scroll_to_found_record_components (found : FoundRecord) (rv : RowsView)
    (ts : CsvTableState)
    (hsat : ts.cols_offset + ts.num_cols_rendered ≤ u64max) :
    (rv.in_view found.row_index = true →
      (scroll_to_found_record found rv ts).1.rows_from = rv.rows_from ∧
      (scroll_to_found_record found rv ts).2.rows_offset = ts.rows_offset) ∧
    (rv.in_view found.row_index = false →
      (scroll_to_found_record found rv ts).2.rows_offset = found.row_index ∧
      (scroll_to_found_record found rv ts).1.rows_from =
        (match rv.total with
          | none => found.row_index
          | some t => min found.row_index (t - rv.num_rows))) ∧
    (ts.cols_offset ≤ found.first_column ∧
        found.first_column < ts.cols_offset + ts.num_cols_rendered →
      (scroll_to_found_record found rv ts).2.cols_offset = ts.cols_offset) ∧
    (¬ (ts.cols_offset ≤ found.first_column ∧
        found.first_column < ts.cols_offset + ts.num_cols_rendered) →
      (scroll_to_found_record found rv ts).2.cols_offset = found.first_column) := by
  have hsat2 : saturating_add ts.cols_offset ts.num_cols_rendered =
      ts.cols_offset + ts.num_cols_rendered := by
    simp [saturating_add, Nat.min_eq_left hsat]
  refine ⟨?_, ?_, ?_, ?_⟩
  · intro h
    by_cases hc : ts.cols_offset ≤ found.first_column ∧
        found.first_column < ts.cols_offset + ts.num_cols_rendered <;>
      simp [scroll_to_found_record, get_offsets_to_make_visible, h, hsat2, hc,
        CsvTableState.set_cols_offset, CsvTableState.set_rows_offset]
  · intro h
    have hfrom : (rv.set_rows_from found.row_index).rows_from =
        (match rv.total with
          | none => found.row_index
          | some t => min found.row_index (t - rv.num_rows)) := by
      unfold RowsView.set_rows_from
      cases ht : rv.total <;> simp [ht]
    by_cases hc : ts.cols_offset ≤ found.first_column ∧
        found.first_column < ts.cols_offset + ts.num_cols_rendered <;>
      simp [scroll_to_found_record, get_offsets_to_make_visible, h, hsat2, hc,
        CsvTableState.set_cols_offset, CsvTableState.set_rows_offset, hfrom]
  · intro hc
    by_cases h : rv.in_view found.row_index <;>
      simp [scroll_to_found_record, get_offsets_to_make_visible, h, hsat2, hc,
        CsvTableState.set_cols_offset, CsvTableState.set_rows_offset]
  · intro hc
    by_cases h : rv.in_view found.row_index <;>
      simp [scroll_to_found_record, get_offsets_to_make_visible, h, hsat2, hc,
        CsvTableState.set_cols_offset, CsvTableState.set_rows_offset]

/-- C8 witness: a record at row 10, column 2 against the open-ended five-row
window jumps both offsets to 10 and keeps the visible column 2; the record at
row 95, column 0 against the counted 100-row file sets the table's rows
offset to 95 but the rows view's first visible row to the clamped 90. -/
theorem scroll_to_found_record_components_witness :
    (scroll_to_found_record ⟨10, 2⟩ sample_rows_view
      (sample_table 0 false)).1.rows_from = 10 ∧
    (scroll_to_found_record ⟨10, 2⟩ sample_rows_view
      (sample_table 0 false)).2.rows_offset = 10 ∧
    (scroll_to_found_record ⟨10, 2⟩ sample_rows_view
      (sample_table 0 false)).2.cols_offset = 0 ∧
    (scroll_to_found_record ⟨95, 0⟩ clamp_rows_view
      (sample_table 0 false)).2.rows_offset = 95 ∧
    (scroll_to_found_record ⟨95, 0⟩ clamp_rows_view
      (sample_table 0 false)).1.rows_from = 90 := by
  have h := scroll_to_found_record_components ⟨10, 2⟩ sample_rows_view
    (sample_table 0 false) (by decide)
  have h2 := scroll_to_found_record_components ⟨95, 0⟩ clamp_rows_view
    (sample_table 0 false) (by decide)
  exact ⟨(h.2.1 rfl).2, (h.2.1 rfl).1, h.2.2.1 (by decide),
    (h2.2.1 rfl).1, (h2.2.1 rfl).2⟩

/-- The trailing table-state updates touch neither the finder nor the rows
view nor the flag. -/
theorem step_end_projections (s : AppState) :
    (step_end s).finder = s.finder ∧
    (step_end s).rows_view = s.rows_view ∧
    (step_end s).first_found_scrolled = s.first_found_scrolled :=
  ⟨rfl, rfl, rfl⟩

/-- After the out-of-view cursor reset, a cursor that still exists points into
the view. -/
theorem cursor_reset_step_in_view (rv : RowsView) (f : Finder) (i : Nat)
    (h : (cursor_reset_step rv f).cursor_row_index = some i) :
    rv.in_view i = true := by
  unfold cursor_reset_step at h
  cases hc : f.cursor_row_index with
  | none => rw [hc] at h; exact absurd h (by simp [hc])
  | some j =>
    rw [hc] at h
    by_cases hv : rv.in_view j
    · simp [hv] at h
      rw [hc] at h
      cases h
      exact hv
    · simp [hv, Finder.reset_cursor, Finder.cursor_row_index] at h

/-- At the exit of the finder synchronisation block, in find mode, the
finder's cursor is unset or points at a row inside the current view. -/
theorem finder_sync_cursor_in_view (s : AppState) (f2 : Finder) (i : Nat)
    (hf : (finder_sync s).finder = some f2)
    (hfilt : (finder_sync s).rows_view.is_filter = false)
    (hcur : f2.cursor_row_index = some i) :
    (finder_sync s).rows_view.in_view i = true := by
  cases hsf : s.finder with
  | none =>
    have hsync : finder_sync s = s := by simp [finder_sync, hsf]
    rw [hsync] at hf
    rw [hsf] at hf
    exact Option.noConfusion hf
  | some fdr =>
    by_cases hisf : s.rows_view.is_filter
    · have hsync : finder_sync s =
          { s with rows_view := s.rows_view.set_filter fdr } := by
        simp [finder_sync, hsf, hisf]
      rw [hsync] at hfilt
      simp [RowsView.set_filter, RowsView.is_filter] at hfilt
    · have hsync : finder_sync s =
          { rows_view := (first_found_step s.rows_view s.table fdr
              s.first_found_scrolled).1,
            table := (first_found_step s.rows_view s.table fdr
              s.first_found_scrolled).2.1,
            finder := some ((cursor_reset_step
              (first_found_step s.rows_view s.table fdr
                s.first_found_scrolled).1
              (first_found_step s.rows_view s.table fdr
                s.first_found_scrolled).2.2.1).set_row_hint
              (first_found_step s.rows_view s.table fdr
                s.first_found_scrolled).1.rows_from),
            first_found_scrolled := (first_found_step s.rows_view s.table fdr
              s.first_found_scrolled).2.2.2 } := by
        simp [finder_sync, hsf, hisf]
      rw [hsync] at hf ⊢
      simp only [Option.some.injEq] at hf
      have hhint : ∀ (f : Finder) (n : Nat),
          (f.set_row_hint n).cursor_row_index = f.cursor_row_index :=
        fun _ _ => rfl
      rw [← hf, hhint] at hcur
      exact cursor_reset_step_in_view _ _ _ hcur

/-- A continuing step is the trailing updates after the finder
synchronisation after the dispatch, on the state with the background matches
appended and the control applied to the rows view. -/
theorem step_cont_shape (filename : String) (readerOk : Bool) (s : AppState)
    (bg : List FoundRecord) (c : Control) (s2 : AppState)
    (hstep : step filename readerOk s bg c = StepResult.cont s2) :
    ∃ rv : RowsView,
      (s.bg_append bg).rows_view.handle_control c readerOk = Except.ok rv ∧
      s2 = step_end (finder_sync
        (dispatch filename { s.bg_append bg with rows_view := rv } c)) := by
  simp only [step] at hstep
  cases hh : (s.bg_append bg).rows_view.handle_control c readerOk with
  | error e => rw [hh] at hstep; simp at hstep
  | ok rv =>
    rw [hh] at hstep
    refine ⟨rv, rfl, ?_⟩
    cases c <;> simp at hstep <;> exact hstep.symm

/-- C7: at the end of every continuing main-loop frame in find mode (not
filtering), the finder's cursor is either unset or anchored at a row inside
the current view: an off-screen cursor was cleared by `reset_cursor()` during
the frame's finder synchronisation. -/
theorem cursor_reset_on_scroll_away (filename : String) (readerOk : Bool)
    (s : AppState) (bg : List FoundRecord) (c : Control) (s2 : AppState)
    (hstep : step filename readerOk s bg c = StepResult.cont s2)
    (f2 : Finder) (hf : s2.finder = some f2)
    (hfilt : s2.rows_view.is_filter = false)
    (i : Nat) (hcur : f2.cursor_row_index = some i) :
    s2.rows_view.in_view i = true := by
  obtain ⟨rv, -, hshape⟩ :=
    step_cont_shape filename readerOk s bg c s2 hstep
  subst hshape
  have hpe := step_end_projections (finder_sync
    (dispatch filename { s.bg_append bg with rows_view := rv } c))
  rw [hpe.2.1]
  rw [hpe.1] at hf
  rw [hpe.2.1] at hfilt
  exact finder_sync_cursor_in_view _ f2 i hf hfilt hcur

/-- Appending background results does not touch the first-found flag. -/
theorem bg_append_flag (s : AppState) (bg : List FoundRecord) :
    (s.bg_append bg).first_found_scrolled = s.first_found_scrolled := by
  cases hf : s.finder <;> simp [AppState.bg_append, hf]

/-- Appending background results does not touch the rows view. -/
theorem bg_append_rows_view (s : AppState) (bg : List FoundRecord) :
    (s.bg_append bg).rows_view = s.rows_view := by
  cases hf : s.finder <;> simp [AppState.bg_append, hf]

/-- Appending background results does not touch the table state. -/
theorem bg_append_table (s : AppState) (bg : List FoundRecord) :
    (s.bg_append bg).table = s.table := by
  cases hf : s.finder <;> simp [AppState.bg_append, hf]

/-- The trailing table-state updates keep the column offset. -/
theorem step_end_cols_offset (s : AppState) :
    (step_end s).table.cols_offset = s.table.cols_offset := by
  rcases s with ⟨⟨rf, nr, fil, tot, ta, sel⟩, ts, fi, fl⟩
  cases tot <;> cases ta <;> cases fi <;> rfl

/-- With the filter active, the finder synchronisation followed by the
trailing updates keeps the row offset, the column offset and the finder. -/
theorem post_filter_projections (t : AppState)
    (hfilt : t.rows_view.is_filter = true) :
    (step_end (finder_sync t)).rows_view.rows_from = t.rows_view.rows_from ∧
    (step_end (finder_sync t)).table.cols_offset = t.table.cols_offset ∧
    (step_end (finder_sync t)).finder = t.finder := by
  have hsync : (finder_sync t).rows_view.rows_from = t.rows_view.rows_from ∧
      (finder_sync t).table = t.table ∧ (finder_sync t).finder = t.finder := by
    cases hf : t.finder with
    | none => simp [finder_sync, hf]
    | some fdr => simp [finder_sync, hf, hfilt, RowsView.set_filter]
  refine ⟨?_, ?_, ?_⟩
  · rw [(step_end_projections (finder_sync t)).2.1]; exact hsync.1
  · rw [step_end_cols_offset, hsync.2.1]
  · rw [(step_end_projections (finder_sync t)).1]; exact hsync.2.2

/-- No control other than `Find` clears the first-found flag. -/
theorem dispatch_flag (filename : String) (s : AppState) (c : Control)
    (hne : ∀ q, c ≠ Control.Find q) :
    (dispatch filename s c).first_found_scrolled = s.first_found_scrolled := by
  cases c with
  | Quit => rfl
  | ScrollTo n => rfl
  | ScrollLeft => rfl
  | ScrollRight =>
    by_cases h : s.table.has_more_cols_to_show <;> simp [dispatch, h]
  | ScrollToNextFound =>
    by_cases h : s.rows_view.is_filter
    · simp [dispatch, h]
    · cases hf : s.finder with
      | none => simp [dispatch, h, hf]
      | some fdr =>
        rcases hn : fdr.next with ⟨found, f2⟩
        cases found <;> simp [dispatch, h, hf, hn]
  | ScrollToPrevFound =>
    by_cases h : s.rows_view.is_filter
    · simp [dispatch, h]
    · cases hf : s.finder with
      | none => simp [dispatch, h, hf]
      | some fdr =>
        rcases hn : fdr.prev with ⟨found, f2⟩
        cases found <;> simp [dispatch, h, hf, hn]
  | Find q => exact absurd rfl (hne q)
  | Filter q => rfl
  | BufferContent b => rfl
  | BufferReset =>
    by_cases h : s.finder.isSome <;> simp [dispatch, h]

/-- The first-found block does nothing once the flag is set. -/
theorem first_found_step_done (rv : RowsView) (ts : CsvTableState) (f : Finder) :
    first_found_step rv ts f true = (rv, ts, f, true) := by
  simp [first_found_step]

/-- A set first-found flag survives the finder synchronisation. -/
theorem finder_sync_flag_true (s : AppState)
    (h : s.first_found_scrolled = true) :
    (finder_sync s).first_found_scrolled = true := by
  cases hf : s.finder with
  | none => simp [finder_sync, hf, h]
  | some fdr =>
    by_cases hisf : s.rows_view.is_filter
    · simp [finder_sync, hf, hisf, h]
    · simp [finder_sync, hf, hisf, h, first_found_step_done]

/-- With no cursor set and some results committed, the first-found block sets
the row hint to 0, takes `next()` — which lands on the first match — scrolls
to it, and sets the flag. -/
theorem first_found_step_triggered (rv : RowsView) (ts : CsvTableState)
    (f : Finder) (hcur : f.cursor = none) (h : 0 < f.match_set.length) :
    first_found_step rv ts f false =
      ((scroll_to_found_record (f.match_set.get ⟨0, h⟩) rv ts).1,
       (scroll_to_found_record (f.match_set.get ⟨0, h⟩) rv ts).2,
       { f with row_hint := 0, cursor := some 0 }, true) := by
  obtain ⟨a, tl, hm⟩ : ∃ a tl, f.match_set = a :: tl := by
    rcases hx : f.match_set with _ | ⟨a, tl⟩
    · rw [hx] at h; simp at h
    · exact ⟨a, tl, rfl⟩
  have hcount : 0 < f.count := by simp [Finder.count, hm]
  simp [first_found_step, hcount, Finder.next, Finder.set_row_hint, hm, hcur,
    Finder.count, List.findIdx_cons, Nat.zero_le]

/-- C9 counterexample: start from the initial state, handle `Find("x")` (no
results yet, flag still unset), then a frame in which the background scan has
committed matches at rows 10 and 20 while the user presses
`ScrollToNextFound`. That frame is the first with `count() > 0` and it sets
the flag, but the navigation taken during dispatch had already set the
cursor, so the automatic `next()` advances past the first match: the frame
ends at row offset 20 with the first match (row 10) not even in view. -/
theorem first_found_scroll_counterexample :
    find_frame.first_found_scrolled = false ∧
    find_frame.finder.map Finder.count = some 0 ∧
    find_frame2.first_found_scrolled = true ∧
    find_frame2.finder.map Finder.count = some 2 ∧
    (find_frame2.finder.map fun f => f.match_set.head?) = some (some ⟨10, 0⟩) ∧
    find_frame2.rows_view.rows_from = 20 ∧
    find_frame2.rows_view.in_view 10 = false :=
  ⟨rfl, rfl, rfl, rfl, rfl, rfl, rfl⟩

/-- C9 (amended): the first-found auto-scroll happens exactly once per
search: when the flag is unset, results exist and no navigation has set the
cursor in the same frame, the block sets the row hint to 0, takes `next()` —
landing on the first match — scrolls to it and sets the flag; once the flag
is set the block does nothing; only a new `Find` clears the flag, and a set
flag survives a whole frame handling any non-`Find` control. -/
theorem first_found_scroll_once (filename : String) (readerOk : Bool)
    (rv : RowsView) (ts : CsvTableState) (f : Finder) (s : AppState)
    (bg : List FoundRecord) (p : String) (c : Control) :
    (f.cursor = none → ∀ h : 0 < f.match_set.length,
      first_found_step rv ts f false =
        ((scroll_to_found_record (f.match_set.get ⟨0, h⟩) rv ts).1,
         (scroll_to_found_record (f.match_set.get ⟨0, h⟩) rv ts).2,
         { f with row_hint := 0, cursor := some 0 }, true)) ∧
    (first_found_step rv ts f true = (rv, ts, f, true)) ∧
    ((∀ q, c ≠ Control.Find q) →
      (dispatch filename s c).first_found_scrolled = s.first_found_scrolled) ∧
    ((dispatch filename s (Control.Find p)).first_found_scrolled = false) ∧
    (s.first_found_scrolled = true → (∀ q, c ≠ Control.Find q) →
      ∀ s2, step filename readerOk s bg c = StepResult.cont s2 →
        s2.first_found_scrolled = true) := by
  refine ⟨fun hcur h => first_found_step_triggered rv ts f hcur h,
    first_found_step_done rv ts f,
    fun hne => dispatch_flag filename s c hne,
    rfl,
    fun hflag hne s2 hstep => ?_⟩
  obtain ⟨rv2, -, hshape⟩ := step_cont_shape filename readerOk s bg c s2 hstep
  subst hshape
  rw [(step_end_projections _).2.2]
  apply finder_sync_flag_true
  rw [dispatch_flag filename _ c hne]
  show (s.bg_append bg).first_found_scrolled = true
  rw [bg_append_flag s bg]
  exact hflag

/-- C9 witness: the pending finder (one match at row 3, no cursor) triggers
the first-found scroll; a `ScrollLeft` preserves the flag; and a whole frame
handling a buffered keystroke keeps an already-set flag set. -/
theorem first_found_scroll_once_witness :
    (first_found_step sample_rows_view (sample_table 0 false) pending_finder
        false =
      ((scroll_to_found_record ⟨3, 1⟩ sample_rows_view (sample_table 0 false)).1,
       (scroll_to_found_record ⟨3, 1⟩ sample_rows_view (sample_table 0 false)).2,
       { pending_finder with row_hint := 0, cursor := some 0 }, true)) ∧
    ((dispatch "data.csv" anchored_state Control.ScrollLeft).first_found_scrolled
      = anchored_state.first_found_scrolled) ∧
    anchored_result.first_found_scrolled = true :=
  ⟨(first_found_scroll_once "data.csv" true sample_rows_view
      (sample_table 0 false) pending_finder anchored_state [] "x"
      Control.ScrollLeft).1 rfl (by decide),
   (first_found_scroll_once "data.csv" true sample_rows_view
      (sample_table 0 false) pending_finder anchored_state [] "x"
      Control.ScrollLeft).2.2.1 (fun q hq => Control.noConfusion hq),
   (first_found_scroll_once "data.csv" true sample_rows_view
      (sample_table 0 false) pending_finder anchored_state [] "x"
      (Control.BufferContent "q")).2.2.2.2 rfl
      (fun q hq => Control.noConfusion hq) anchored_result rfl⟩

/-- C10: with an active filter, `ScrollToNextFound` and `ScrollToPrevFound`
are no-ops: the frame leaves the row offset, the column offset and the
finder — cursor included, beyond the background scan's own appends —
unchanged. -/
theorem filter_mode_found_noop (filename : String) (readerOk : Bool)
    (s : AppState) (bg : List FoundRecord)
    (hfilt : s.rows_view.is_filter = true) :
    ((step filename readerOk s bg Control.ScrollToNextFound).state.map
        fun s2 => (s2.rows_view.rows_from, s2.table.cols_offset, s2.finder)) =
      some (s.rows_view.rows_from, s.table.cols_offset,
        (s.bg_append bg).finder) ∧
    ((step filename readerOk s bg Control.ScrollToPrevFound).state.map
        fun s2 => (s2.rows_view.rows_from, s2.table.cols_offset, s2.finder)) =
      some (s.rows_view.rows_from, s.table.cols_offset,
        (s.bg_append bg).finder) := by
  have hfilt2 : (s.bg_append bg).rows_view.is_filter = true := by
    rw [bg_append_rows_view]; exact hfilt
  constructor
  · have hstep : step filename readerOk s bg Control.ScrollToNextFound =
        StepResult.cont (step_end (finder_sync (dispatch filename
          (s.bg_append bg) Control.ScrollToNextFound))) := rfl
    have hd : dispatch filename (s.bg_append bg) Control.ScrollToNextFound =
        s.bg_append bg := by
      simp [dispatch, hfilt2]
    have hp := post_filter_projections (s.bg_append bg) hfilt2
    rw [hstep, hd]
    simp [StepResult.state, hp.1, hp.2.1, hp.2.2, bg_append_rows_view s bg,
      bg_append_table s bg]
  · have hstep : step filename readerOk s bg Control.ScrollToPrevFound =
        StepResult.cont (step_end (finder_sync (dispatch filename
          (s.bg_append bg) Control.ScrollToPrevFound))) := rfl
    have hd : dispatch filename (s.bg_append bg) Control.ScrollToPrevFound =
        s.bg_append bg := by
      simp [dispatch, hfilt2]
    have hp := post_filter_projections (s.bg_append bg) hfilt2
    rw [hstep, hd]
    simp [StepResult.state, hp.1, hp.2.1, hp.2.2, bg_append_rows_view s bg,
      bg_append_table s bg]

/-- C10 witness: in the concrete filtering state the two commands change
neither the offsets nor the finder (the background append aside). -/
theorem filter_mode_found_noop_witness :
    ((step "data.csv" true filtering_state [⟨7, 0⟩]
        Control.ScrollToNextFound).state.map
      fun s2 => (s2.rows_view.rows_from, s2.table.cols_offset, s2.finder)) =
      some (0, 1, some (pending_finder.append_matches [⟨7, 0⟩])) ∧
    ((step "data.csv" true filtering_state [⟨7, 0⟩]
        Control.ScrollToPrevFound).state.map
      fun s2 => (s2.rows_view.rows_from, s2.table.cols_offset, s2.finder)) =
      some (0, 1, some (pending_finder.append_matches [⟨7, 0⟩])) :=
  ⟨(filter_mode_found_noop "data.csv" true filtering_state [⟨7, 0⟩] rfl).1,
   (filter_mode_found_noop "data.csv" true filtering_state [⟨7, 0⟩] rfl).2⟩

/-- C7 witness: a frame handling a buffered keystroke with a cursor on row 2
and rows 0–4 in view keeps the cursor, which indeed lies in view. -/
theorem cursor_reset_on_scroll_away_witness :
    anchored_result.rows_view.in_view 2 = true :=
  cursor_reset_on_scroll_away "data.csv" true anchored_state []
    (Control.BufferContent "q") anchored_result rfl
    { anchored_finder with row_hint := 0 } rfl rfl 2 rfl

end Csvlens
